import Mathlib

/-!
Verification of the AECS entity-component system (src/include/aecs/aecs.hpp)
against its natural-language specification.

The C++ header is shallowly embedded below.  Machine integers of the entity
id type (`std::uint32_t` by default) are modelled as `Nat` with explicit
`% 2 ^ 32` where C++ arithmetic can wrap; `std::vector` is `List` with
out-of-bounds element access (undefined behaviour in C++) modelled by
`Option`-valued operations returning `none`; the `std::unordered_map` of
type-erased component allocators is an association list keyed by the
component's assigned dense id (each distinct C++ type has a distinct
`std::type_index` and a distinct assigned id, so the id is a faithful key).
Component payload values are modelled as `Nat`, with `0` standing for the
value-initialised default `T{}` (payload types are opaque to the library).
-/

namespace aecs

/-- `internal::get_entity_index`: `entity >> (sizeof(entity_id)*8/2)`.
`w` is the total bit width of the entity id type (32 for the default
`std::uint32_t`); the value `e` satisfies `e < 2 ^ w` for ids arising from
the C++ program. -/
def get_entity_index (w e : Nat) : Nat :=
  e / 2 ^ (w / 2)

/-- `internal::get_entity_version`: `(entity << version_size) >> version_size`
in width-`w` unsigned arithmetic (the left shift wraps modulo `2 ^ w`). -/
def get_entity_version (w e : Nat) : Nat :=
  e * 2 ^ (w / 2) % 2 ^ w / 2 ^ (w / 2)

/-- `internal::set_entity_index`: `entity = index; entity <<= index_offset;
entity |= version` in width-`w` unsigned arithmetic. -/
def set_entity_index (w e idx : Nat) : Nat :=
  idx * 2 ^ (w / 2) % 2 ^ w ||| get_entity_version w e

/-- `internal::set_entity_version`: `entity = version; entity |= index`.
Note the source does NOT shift the index back into the high half before
the bitwise or: the extracted index is or-ed into the low (version) bits. -/
def set_entity_version (w e ver : Nat) : Nat :=
  ver ||| get_entity_index w e

/-- `internal::create_invalid_entity`: `std::numeric_limits<entity_id>::max()`. -/
def create_invalid_entity (w : Nat) : Nat :=
  2 ^ w - 1

/-- `internal::entity_is_valid`: `entity != invalid_entity`. -/
def entity_is_valid (w e : Nat) : Bool :=
  e != create_invalid_entity w

/-- Models the C++ expression `1 << k` (with `1` of 32-bit `int` type, as in
`registry::has`, `registry::assign` and `view::add_type_to_mask`),
converted to `std::uint64_t` for use against the 64-bit mask.  For `k < 31` the value is `2 ^ k`.  For `k = 31` the `int`
result is `-2^31` (two's complement), which sign-extends to
`0xFFFFFFFF80000000 = 2 ^ 64 - 2 ^ 31` on conversion to `std::uint64_t`.
For `k ≥ 32` the shift count reaches the width of `int` and the behaviour
is undefined, modelled as `none`. -/
def int_shl_one_u64 (k : Nat) : Option Nat :=
  if k < 31 then some (2 ^ k)
  else if k = 31 then some (2 ^ 64 - 2 ^ 31)
  else none

/-- State of the process-wide component type id assignment
(`internal::current_component_id` together with the per-type `static` local
in `internal::get_component_id`): the list of distinct component types, in
first-registration order.  Component types are identified by `Nat` labels;
the assigned id of a registered type is its position in this list, and the
counter's current value is the list's length. -/
structure TypeRegState where
  registered : List Nat
deriving Repr, DecidableEq

/-- Position of the first occurrence of `t` in `l`, if present. -/
def assigned_id : List Nat → Nat → Option Nat
  | [], _ => none
  | a :: rest, t => if a = t then some 0 else (assigned_id rest t).map (· + 1)

/-- `internal::get_component_id<T>()`: on the first call for type `t` the
`static` local captures `current_component_id++` (the number of previously
registered types); later calls return the captured value.  The function
asserts `id < 64` (`MAX_COMPONENTS`) in checked builds. -/
def get_component_id (t : Nat) (s : TypeRegState) : TypeRegState × Nat :=
  match assigned_id s.registered t with
  | some k => (s, k)
  | none => (⟨s.registered ++ [t]⟩, s.registered.length)

/-- Condition of the `AECS_ASSERT(id < 64)` in `internal::get_component_id`. -/
abbrev component_id_assert_cond (id : Nat) : Prop :=
  id < 64

/-- `internal::entity<entity_id>`: a slot of the entity table, holding the
slot's current id and its 64-bit component mask (default member initialiser
`mask = 0`; `id` value-initialises to `0` on `std::vector::resize`). -/
structure entity where
  id : Nat
  mask : Nat
deriving Repr, DecidableEq

/-- The value-initialised `internal::entity` produced by
`std::vector<entity>::resize`. -/
def default_entity : entity :=
  ⟨0, 0⟩

/-- `std::vector::resize(n)`: truncate to `n` elements if `n` is not larger
than the current size, otherwise append value-initialised elements. -/
def list_resize (l : List α) (n : Nat) (dflt : α) : List α :=
  if n ≤ l.length then l.take n else l ++ List.replicate (n - l.length) dflt

/-- `component_allocator<entity_id, T>::insert` acting on the allocator's
`std::vector<T> arr` at a given entity index: grow the vector to
`index == 0 ? 32 : index * 2` when `index` is not below the current size,
then write the component value at `index` (always in bounds after the
growth). -/
def alloc_insert (arr : List Nat) (index v : Nat) : List Nat :=
  (if arr.length ≤ index
    then list_resize arr (if index = 0 then 32 else index * 2) 0
    else arr).set index v

/-- `component_allocator<entity_id, T>::get`: `return arr[index]`.  Reading
out of bounds is undefined behaviour, modelled as `none`.  (The checked
build asserts only `arr.size() >= index`, which also admits
`index == arr.size()`.) -/
def alloc_get (arr : List Nat) (index : Nat) : Option Nat :=
  if index < arr.length then some (arr.getD index 0) else none

/-- `component_allocator<entity_id, T>::destroy`: `arr[index] = T{}`.
Writing out of bounds is undefined behaviour, modelled as `none`. -/
def alloc_destroy (arr : List Nat) (index : Nat) : Option (List Nat) :=
  if index < arr.length then some (arr.set index 0) else none

/-- Condition of the `AECS_ASSERT(arr.size() >= index)` in
`component_allocator::get` and `component_allocator::destroy`. -/
abbrev alloc_size_assert_cond (arr : List Nat) (index : Nat) : Prop :=
  arr.length ≥ index

/-- Lookup of `allocators.find(type_index)` in the `component_manager`'s
`std::unordered_map` of type-erased allocators, modelled as an association
list from the component type's assigned id to that allocator's payload
vector. -/
def stores_find : List (Nat × List Nat) → Nat → Option (List Nat)
  | [], _ => none
  | p :: ps, k => if p.1 = k then some p.2 else stores_find ps k

/-- Replacement of the mapped vector for an existing key. -/
def stores_update : List (Nat × List Nat) → Nat → List Nat → List (Nat × List Nat)
  | [], _, _ => []
  | p :: ps, k, a => if p.1 = k then (k, a) :: ps else p :: stores_update ps k a

/-- `component_manager::insert<T>`: create the allocator for `T` on first
use (with an empty vector), then delegate to `component_allocator::insert`
at the entity's index. -/
def cm_insert (ss : List (Nat × List Nat)) (k index v : Nat) : List (Nat × List Nat) :=
  match stores_find ss k with
  | some arr => stores_update ss k (alloc_insert arr index v)
  | none => ss ++ [(k, alloc_insert [] index v)]

/-- `component_manager::get<T>`: delegate to the allocator for `T`.  When no
allocator was ever created for `T`, `allocators[type_index]` holds a null
`std::unique_ptr` and the call dereferences it — undefined behaviour,
modelled as `none` (the checked build asserts the allocator exists). -/
def cm_get (ss : List (Nat × List Nat)) (k index : Nat) : Option Nat :=
  match stores_find ss k with
  | some arr => alloc_get arr index
  | none => none

/-- `component_manager::entity_destroyed`: broadcast
`component_allocator::destroy` at the entity's index to every registered
allocator; undefined (`none`) as soon as one of the writes is out of
bounds. -/
def cm_entity_destroyed : List (Nat × List Nat) → Nat → Option (List (Nat × List Nat))
  | [], _ => some []
  | p :: ps, index =>
    match alloc_destroy p.2 index, cm_entity_destroyed ps index with
    | some a, some rest => some ((p.1, a) :: rest)
    | _, _ => none

/-- State of an `aecs::registry<std::uint32_t>` (the default entity id
type, so the id width is 32 and the index/version halves are 16 bits
each): the entity table, the FIFO queue of deleted ids (front first), the
next fresh index, and the component stores.  Component type ids are taken
as already assigned by `internal::get_component_id` (each distinct C++
component type is denoted by its assigned id `k < 64`). -/
structure RegState where
  entities : List entity
  deleted_ids : List Nat
  current_index : Nat
  stores : List (Nat × List Nat)
deriving Repr, DecidableEq

/-- A freshly constructed `aecs::registry<std::uint32_t>`. -/
def reg_init : RegState :=
  ⟨[], [], 0, []⟩

/-- `registry::new_entity`.  If the deleted-id queue is non-empty: read the
front id (`deleted_ids.front()` — the source never pops it, so the queue
is left unchanged), build the reused id with
`set_entity_version(old_id, version+1)`, and overwrite the slot at the old
id's index with mask `0` (writing `entities[index]` out of bounds is
undefined, modelled `none`; the checked build asserts only
`entities.size() >= index` and that the slot's id is invalid).  Otherwise: grow the table to `current_index == 0 ? 32 :
current_index * 2` when full, install `set_entity_index(0, current_index)`
at the fresh slot (leaving that slot's mask as the table holds it) and
increment `current_index` (a 32-bit counter). -/
def new_entity (s : RegState) : Option (RegState × Nat) :=
  match s.deleted_ids with
  | old_id :: _ =>
    if get_entity_index 32 old_id < s.entities.length then
      some ({ s with
                entities := s.entities.set (get_entity_index 32 old_id)
                  ⟨set_entity_version 32 old_id (get_entity_version 32 old_id + 1), 0⟩ },
            set_entity_version 32 old_id (get_entity_version 32 old_id + 1))
    else none
  | [] =>
    let ents := if s.entities.length ≤ s.current_index
      then list_resize s.entities
        (if s.current_index = 0 then 32 else s.current_index * 2 % 2 ^ 32)
        default_entity
      else s.entities
    let nid := set_entity_index 32 0 s.current_index
    if s.current_index < ents.length then
      some ({ s with
                entities := ents.set s.current_index
                  ⟨nid, (ents.getD s.current_index default_entity).mask⟩,
                current_index := (s.current_index + 1) % 2 ^ 32 },
            nid)
    else none

/-- `registry::delete_entity`: overwrite the slot at the id's index with
`{ .id = create_invalid_entity() }` (whose mask is `0` by the default
member initialiser), push the passed id onto the deleted queue, and
broadcast `entity_destroyed` to every component store.  Out-of-bounds slot
access, or an out-of-bounds store write during the broadcast, is undefined
(`none`); the checked build asserts only `entities.size() >= index`. -/
def delete_entity (s : RegState) (e : Nat) : Option RegState :=
  if get_entity_index 32 e < s.entities.length then
    match cm_entity_destroyed s.stores (get_entity_index 32 e) with
    | some ss =>
      some { s with
               entities := s.entities.set (get_entity_index 32 e)
                 ⟨create_invalid_entity 32, 0⟩,
               deleted_ids := s.deleted_ids ++ [e],
               stores := ss }
    | none => none
  else none

/-- `registry::has<T>`: `(entities[get_entity_index(entity)].mask &
(1 << component_id)) != 0`, where `k` is the component id assigned to `T`.
Undefined (`none`) when the slot read is out of bounds or the 32-bit `int`
shift is undefined (`k ≥ 32`). -/
def reg_has (s : RegState) (e k : Nat) : Option Bool :=
  match int_shl_one_u64 k with
  | some b =>
    if get_entity_index 32 e < s.entities.length then
      some (((s.entities.getD (get_entity_index 32 e) default_entity).mask &&& b) != 0)
    else none
  | none => none

/-- `registry::assign<T>`: or `1 << component_id` into the slot's mask and
delegate to `component_manager::insert` at the entity's index.  The checked
build asserts `!has<T>(entity)` first.  Undefined (`none`) on an
out-of-bounds slot or an undefined shift. -/
def reg_assign (s : RegState) (e k v : Nat) : Option RegState :=
  match int_shl_one_u64 k with
  | some b =>
    if get_entity_index 32 e < s.entities.length then
      some { s with
               entities := s.entities.set (get_entity_index 32 e)
                 ⟨(s.entities.getD (get_entity_index 32 e) default_entity).id,
                  (s.entities.getD (get_entity_index 32 e) default_entity).mask ||| b⟩,
               stores := cm_insert s.stores k (get_entity_index 32 e) v }
    else none
  | none => none

/-- `registry::get<T>`: delegate to `component_manager::get` at the
entity's index (the checked build asserts `has<T>(entity)` first). -/
def reg_get (s : RegState) (e k : Nat) : Option Nat :=
  cm_get s.stores k (get_entity_index 32 e)

/-- Query mask of `registry::view<Types...>`: fold of
`mask |= (1 << component_id)` over the component ids of `Types...`
(32-bit `int` shifts, so undefined for an id `≥ 32`). -/
def view_mask (ks : List Nat) : Option Nat :=
  ks.foldl
    (fun acc k =>
      match acc, int_shl_one_u64 k with
      | some m, some b => some (m ||| b)
      | _, _ => none)
    (some 0)

/-- One slot test of `view::find_next_valid`:
`(reg.entities[i].mask & mask) == mask`. -/
def view_match (ents : List entity) (q i : Nat) : Bool :=
  ((ents.getD i default_entity).mask &&& q) == q

/-- The ids yielded by iterating a view with query mask `q` from slot `i`
with `fuel` slots left to scan: the view starts at position `-1`, and each
`find_next_valid` advances to the next slot below `reg.current_index`
whose mask is a superset of `q` (comparison `(mask & q) == q`), stopping
at `reg.current_index` (the `end()` position).  Dereference yields
`reg.entities[position].id`.  In every state constructed by the registry
operations `current_index ≤ entities.length`, so the scan stays in
bounds. -/
def view_ids_from (ents : List entity) (cnt q : Nat) : Nat → Nat → List Nat
  | _, 0 => []
  | i, fuel + 1 =>
    if i < cnt then
      if view_match ents q i
      then (ents.getD i default_entity).id :: view_ids_from ents cnt q (i + 1) fuel
      else view_ids_from ents cnt q (i + 1) fuel
    else []

/-- All entity ids yielded by iterating `registry::new_view` with query
mask `q` over state `s`, in scan (ascending slot) order. -/
def view_ids (s : RegState) (q : Nat) : List Nat :=
  view_ids_from s.entities s.current_index q 0 s.current_index

/-- `n` successive calls of `registry::new_entity`, keeping the state. -/
def iterate_new (s : RegState) : Nat → Option RegState
  | 0 => some s
  | n + 1 => (new_entity s).bind fun p => iterate_new p.1 n

/-- Scenario: the id returned by the second `new_entity()` on a fresh
registry (index 1, version 0). -/
def c2_second_id : Option Nat :=
  (new_entity reg_init).bind fun p1 =>
  (new_entity p1.1).map fun p2 => p2.2

/-- Scenario: create two entities, `delete_entity` the second one (id
`65536`, index 1, version 0), then call `new_entity()` again; the result is
the id produced by the reuse path. -/
def c2_reused_id : Option Nat :=
  (new_entity reg_init).bind fun p1 =>
  (new_entity p1.1).bind fun p2 =>
  (delete_entity p2.1 p2.2).bind fun s3 =>
  (new_entity s3).map fun p4 => p4.2

/-- Scenario: three entities — id `0` carrying component `A` (assigned id
0), id `65536` carrying `A` and `B` (assigned id 1), id `131072` carrying
`B` — with distinct payload values. -/
def c5_state : Option RegState :=
  (new_entity reg_init).bind fun p1 =>
  (new_entity p1.1).bind fun p2 =>
  (new_entity p2.1).bind fun p3 =>
  (reg_assign p3.1 0 0 10).bind fun s =>
  (reg_assign s 65536 0 11).bind fun s =>
  (reg_assign s 65536 1 12).bind fun s =>
  reg_assign s 131072 1 13

/-- Scenario: one entity created and immediately deleted; its slot holds
the invalid sentinel id and mask `0`, and the deleted id waits in the
reuse queue. -/
def c6_state : Option RegState :=
  (new_entity reg_init).bind fun p => delete_entity p.1 p.2

/-- Scenario: `assign` with a component id of 32 on a live entity — the
32-bit `int` shift `1 << 32` is undefined. -/
def c3_bad_assign : Option RegState :=
  (new_entity reg_init).bind fun p => reg_assign p.1 0 32 7

/-- Scenario: 33 entities (indices 0–32), with the component store for id
0 created by an `assign` at index 0, so that store's vector has size 32
and does not cover index 32. -/
def c7_state : Option RegState :=
  (iterate_new reg_init 33).bind fun s => reg_assign s 0 0 7

/-- Scenario: one entity, then `assign` with component id 31 — the 32-bit
`int` shift sign-extends and the mask update touches bits 31–63. -/
def c9_state : Option RegState :=
  (new_entity reg_init).bind fun p => reg_assign p.1 0 31 5

/-- The registry state after one `new_entity()` on a fresh registry: 32
slots, entity `0` (index 0, version 0) live in slot 0 with an empty mask. -/
def demo_new_state : RegState :=
  ⟨List.replicate 32 default_entity, [], 1, []⟩

/-- `demo_new_state` after deleting entity `0`. -/
def demo_deleted_state : RegState :=
  ⟨(List.replicate 32 default_entity).set 0 ⟨create_invalid_entity 32, 0⟩,
   [0], 1, []⟩

/-- `demo_new_state` after `assign` of component id 0 (value 7) to
entity 0. -/
def c4_s1 : RegState :=
  (reg_assign demo_new_state 0 0 7).getD reg_init

/-- `c4_s1` after `assign` of component id 1 (value 9) to entity 0. -/
def c4_s2 : RegState :=
  (reg_assign c4_s1 0 1 9).getD reg_init

/-- `c4_s2` after `delete_entity` of entity 0. -/
def c4_s3 : RegState :=
  (delete_entity c4_s2 0).getD reg_init

/-- State and id returned by `new_entity()` on `c4_s3` (the reuse path). -/
def c4_p4 : RegState × Nat :=
  (new_entity c4_s3).getD (reg_init, 0)

end aecs

open aecs

theorem assigned_id_append_of_not_mem (l : List Nat) (t : Nat) (h : t ∉ l) :
    assigned_id (l ++ [t]) t = some l.length := by
  induction l with
  | nil => simp [assigned_id]
  | cons a rest ih =>
    simp only [List.mem_cons, not_or] at h
    simp [assigned_id, Ne.symm h.1, ih h.2]

theorem assigned_id_none_not_mem (l : List Nat) (t : Nat)
    (h : assigned_id l t = none) : t ∉ l := by
  induction l with
  | nil => simp
  | cons a rest ih =>
    rw [assigned_id] at h
    split at h
    · exact absurd h (by simp)
    · next ha =>
      simp only [List.mem_cons, not_or]
      refine ⟨fun he => ha he.symm, ih ?_⟩
      rcases hr : assigned_id rest t with _ | k
      · rfl
      · rw [hr] at h; simp at h

/-- C1: the claimed codec round trip fails on the code.  At index 1,
version 0 (well inside the 16-bit half-width range of the default 32-bit
id type), `set_entity_index(0, 1)` correctly gives `65536`, but
`set_entity_version(65536, 0)` returns `1` — the extracted index is or-ed
into the low half instead of being shifted back into the high half — so
`index_of` of the result is `0` (not `1`) and `version_of` of the result
is `1` (not `0`). -/
theorem C1_roundtrip_fails :
    set_entity_index 32 0 1 = 65536 ∧
    set_entity_version 32 (set_entity_index 32 0 1) 0 = 1 ∧
    get_entity_index 32 (set_entity_version 32 (set_entity_index 32 0 1) 0) = 0 ∧
    get_entity_version 32 (set_entity_version 32 (set_entity_index 32 0 1) 0) = 1 := by
  decide

/-- C2: on a fresh registry the second `new_entity()` returns id `65536`
(index 1, version 0); after deleting it, the reuse path of `new_entity()`
returns id `1` — an id whose index half is `0`, not `1` (the intended
same-index id with version 1 would be `65537`).  `set_entity_version`
loses the index, so reuse does not return an id at the deleted entity's
index at all. -/
theorem C2_reuse_loses_index :
    c2_second_id = some 65536 ∧
    get_entity_index 32 65536 = 1 ∧
    get_entity_version 32 65536 = 0 ∧
    c2_reused_id = some 1 ∧
    get_entity_index 32 1 = 0 ∧
    get_entity_version 32 1 = 1 := by
  decide

/-- C5: in a registry holding exactly the three live entities `0` (with
component id 0), `65536` (with component ids 0 and 1) and `131072` (with
component id 1), the view over both components (query mask 3) yields
exactly `65536`, and the view over component 0 (query mask 1) yields
exactly `0` then `65536`, in ascending index order. -/
theorem C5_view_yields_matching_entities :
    view_mask [0, 1] = some 3 ∧
    view_mask [0] = some 1 ∧
    c5_state.map (fun s => (view_ids s 3, view_ids s 1)) =
      some ([65536], [0, 65536]) := by
  decide

/-- C6: the claimed sentinel-skipping fails on the code.  After creating
one entity and deleting it, the zero-type view (query mask 0) yields the
deleted slot: `find_next_valid` tests only `(mask & query) == query`, the
deleted slot's mask is `0`, so the view yields the invalid all-ones
sentinel id `4294967295`. -/
theorem C6_view_yields_deleted_sentinel :
    view_mask [] = some 0 ∧
    c6_state.map (fun s => view_ids s 0) = some [create_invalid_entity 32] ∧
    entity_is_valid 32 (create_invalid_entity 32) = false := by
  decide

/-- C9: mask-bit exactness fails on the code.  The mask bit is computed as
`1 << k` with a 32-bit `int` constant: at `k = 31` the value sign-extends
to `2 ^ 64 - 2 ^ 31` (bits 31–63 all set, in particular bit 63), so
`assign` of the id-31 component sets bits 32–63 of the entity mask as well
and the view query mask for that component is `2 ^ 64 - 2 ^ 31` instead of
`2 ^ 31`; at `k = 32` (through `k = 63`) the shift is undefined. -/
theorem C9_mask_bit_not_exact :
    int_shl_one_u64 31 = some (2 ^ 64 - 2 ^ 31) ∧
    (2 ^ 64 - 2 ^ 31 : Nat) ≠ 2 ^ 31 ∧
    Nat.testBit (2 ^ 64 - 2 ^ 31) 63 = true ∧
    int_shl_one_u64 32 = none ∧
    view_mask [31] = some (2 ^ 64 - 2 ^ 31) ∧
    c9_state.map (fun s => (s.entities.getD 0 default_entity).mask) =
      some (2 ^ 64 - 2 ^ 31) := by
  decide

/-- C7 counterexample: in the reachable state `c7_state` (33 live
entities, one component store of capacity 32), deleting the live entity at
index 32 broadcasts `destroy(32)` to that store, and the write
`arr[32] = T{}` is out of bounds — undefined behaviour, not an in-bounds
overwrite — even though the checked-build assertion
`arr.size() >= index` (32 ≥ 32) passes. -/
theorem C7_counterexample_oob_destroy :
    (c7_state.map fun s => s.stores) =
      some [(0, (List.replicate 32 0).set 0 7)] ∧
    (c7_state.map fun s => (s.entities.getD 32 default_entity).id) =
      some (set_entity_index 32 0 32) ∧
    entity_is_valid 32 (set_entity_index 32 0 32) = true ∧
    alloc_size_assert_cond ((List.replicate 32 0).set 0 7) 32 ∧
    alloc_destroy ((List.replicate 32 0).set 0 7) 32 = none ∧
    (c7_state.bind fun s => delete_entity s (set_entity_index 32 0 32)) = none := by
  refine ⟨by decide, by decide, by decide, by decide, by decide, by decide⟩

/-- C10 counterexample: after `delete_entity`, `has` for a component type
with assigned id 32 executes the undefined 32-bit shift `1 << 32`; it does
not return `false` (the claim's quantification over every component type
fails at id 32). -/
theorem C10_counterexample_id32 :
    (c6_state.bind fun s => reg_has s 0 32) = none ∧
    (c6_state.bind fun s => reg_has s 0 32) ≠ some false := by
  refine ⟨by decide, by decide⟩

theorem getD_set_self {α : Type _} (l : List α) (i : Nat) (a d : α)
    (h : i < l.length) : (l.set i a).getD i d = a := by
  rw [List.getD_eq_getElem?_getD, List.getElem?_set_self h]
  rfl

theorem getD_set_ne {α : Type _} (l : List α) (i j : Nat) (a d : α)
    (h : i ≠ j) : (l.set i a).getD j d = l.getD j d := by
  rw [List.getD_eq_getElem?_getD, List.getElem?_set_ne h,
    ← List.getD_eq_getElem?_getD]

theorem int_shl_one_u64_some_of_le {k : Nat} (hk : k ≤ 31) :
    ∃ b, int_shl_one_u64 k = some b := by
  unfold int_shl_one_u64
  rcases Nat.lt_or_ge k 31 with h | h
  · exact ⟨_, by rw [if_pos h]⟩
  · have h31 : k = 31 := Nat.le_antisymm hk h
    subst h31
    exact ⟨2 ^ 64 - 2 ^ 31, by decide⟩

theorem cm_entity_destroyed_eq (ss : List (Nat × List Nat)) (i : Nat)
    (h : ∀ p ∈ ss, i < p.2.length) :
    cm_entity_destroyed ss i = some (ss.map fun p => (p.1, p.2.set i 0)) := by
  induction ss with
  | nil => rfl
  | cons p ps ih =>
    rw [cm_entity_destroyed,
      ih fun q hq => h q (List.mem_cons_of_mem p hq)]
    unfold alloc_destroy
    rw [if_pos (h p (List.mem_cons_self p ps))]
    simp

theorem reg_has_eq {s : RegState} {e k b : Nat}
    (hb : int_shl_one_u64 k = some b)
    (hlt : get_entity_index 32 e < s.entities.length) :
    reg_has s e k =
      some (((s.entities.getD (get_entity_index 32 e) default_entity).mask
               &&& b) != 0) := by
  unfold reg_has
  rw [hb]
  show (if get_entity_index 32 e < s.entities.length then _ else _) = _
  rw [if_pos hlt]

theorem reg_assign_inv {s s1 : RegState} {e k v : Nat}
    (h : reg_assign s e k v = some s1) :
    ∃ b, int_shl_one_u64 k = some b ∧
      get_entity_index 32 e < s.entities.length ∧
      s1 = { s with
               entities := s.entities.set (get_entity_index 32 e)
                 ⟨(s.entities.getD (get_entity_index 32 e) default_entity).id,
                  (s.entities.getD (get_entity_index 32 e) default_entity).mask
                    ||| b⟩,
               stores := cm_insert s.stores k (get_entity_index 32 e) v } := by
  unfold reg_assign at h
  split at h
  · next b hb =>
    split at h
    · next hlt => exact ⟨b, hb, hlt, (Option.some_inj.mp h).symm⟩
    · exact Option.noConfusion h
  · exact Option.noConfusion h

theorem delete_entity_inv {s s1 : RegState} {e : Nat}
    (h : delete_entity s e = some s1) :
    ∃ ss, get_entity_index 32 e < s.entities.length ∧
      cm_entity_destroyed s.stores (get_entity_index 32 e) = some ss ∧
      s1 = { s with
               entities := s.entities.set (get_entity_index 32 e)
                 ⟨create_invalid_entity 32, 0⟩,
               deleted_ids := s.deleted_ids ++ [e],
               stores := ss } := by
  unfold delete_entity at h
  split at h
  · next hlt =>
    split at h
    · next ss hss => exact ⟨ss, hlt, hss, (Option.some_inj.mp h).symm⟩
    · exact Option.noConfusion h
  · exact Option.noConfusion h

theorem new_entity_reuse_inv {ents : List entity} {dels rest : List Nat}
    {ci q e2 : Nat} {sts : List (Nat × List Nat)} {s4 : RegState}
    (hq : dels = q :: rest)
    (h : new_entity ⟨ents, dels, ci, sts⟩ = some (s4, e2)) :
    e2 = set_entity_version 32 q (get_entity_version 32 q + 1) ∧
    get_entity_index 32 q < ents.length ∧
    s4 = ⟨ents.set (get_entity_index 32 q) ⟨e2, 0⟩, dels, ci, sts⟩ := by
  subst hq
  have hred : new_entity ⟨ents, q :: rest, ci, sts⟩ =
      (if get_entity_index 32 q < ents.length then
        some (⟨ents.set (get_entity_index 32 q)
            ⟨set_entity_version 32 q (get_entity_version 32 q + 1), 0⟩,
          q :: rest, ci, sts⟩,
          set_entity_version 32 q (get_entity_version 32 q + 1))
      else none) := rfl
  rw [hred] at h
  split at h
  · next hlt =>
    have hp := Option.some_inj.mp h
    have he2 : e2 = set_entity_version 32 q (get_entity_version 32 q + 1) :=
      (congrArg Prod.snd hp).symm
    refine ⟨he2, hlt, ?_⟩
    rw [he2]
    exact (congrArg Prod.fst hp).symm
  · exact Option.noConfusion h

theorem new_entity_reuse_inv2 {s s4 : RegState} {e2 q : Nat} {rest : List Nat}
    (hq : s.deleted_ids = q :: rest)
    (h : new_entity s = some (s4, e2)) :
    e2 = set_entity_version 32 q (get_entity_version 32 q + 1) ∧
    get_entity_index 32 q < s.entities.length ∧
    s4 = { s with
             entities := s.entities.set (get_entity_index 32 q) ⟨e2, 0⟩ } := by
  obtain ⟨ents, dels, ci, sts⟩ := s
  exact new_entity_reuse_inv (by simpa using hq) (by simpa using h)

/-- C8: component type id assignment.  For a type `t` not yet registered
(a first call), `get_component_id` returns the current counter value (the
number of previously registered types, hence `0` for the very first type,
increasing by one per new type), the counter advances by exactly one, a
repeated call for the same `t` returns the same value without changing the
state (hence so do all later calls), and when 64 types are already
registered the 65th distinct type receives id 64, for which the
checked-build assertion condition `id < 64` is false. -/
theorem C8_type_id_counter (s : TypeRegState) (t : Nat)
    (h : assigned_id s.registered t = none) :
    (get_component_id t s).2 = s.registered.length ∧
    (get_component_id t s).1.registered.length = s.registered.length + 1 ∧
    get_component_id t (get_component_id t s).1 =
      ((get_component_id t s).1, s.registered.length) ∧
    (s.registered.length = 64 →
      ¬ component_id_assert_cond (get_component_id t s).2) := by
  have hred : get_component_id t s = (⟨s.registered ++ [t]⟩, s.registered.length) := by
    unfold get_component_id
    rw [h]
  simp only [hred]
  refine ⟨by simp, by simp, ?_, ?_⟩
  · unfold get_component_id
    rw [show assigned_id (TypeRegState.mk (s.registered ++ [t])).registered t =
          some s.registered.length from
        assigned_id_append_of_not_mem _ _ (assigned_id_none_not_mem _ _ h)]
  · intro h64
    simp [component_id_assert_cond, h64]

/-- C8 witness: with the 64 types `0, …, 63` already registered, the fresh
type `64` receives id 64 and the assertion condition fails. -/
theorem C8_type_id_counter_witness :
    (get_component_id 64 ⟨List.range 64⟩).2 =
      (TypeRegState.mk (List.range 64)).registered.length ∧
    (get_component_id 64 ⟨List.range 64⟩).1.registered.length =
      (TypeRegState.mk (List.range 64)).registered.length + 1 ∧
    get_component_id 64 (get_component_id 64 ⟨List.range 64⟩).1 =
      ((get_component_id 64 ⟨List.range 64⟩).1,
        (TypeRegState.mk (List.range 64)).registered.length) ∧
    ((TypeRegState.mk (List.range 64)).registered.length = 64 →
      ¬ component_id_assert_cond (get_component_id 64 ⟨List.range 64⟩).2) :=
  C8_type_id_counter ⟨List.range 64⟩ 64 (by decide)

/-- C7 (amended): `delete_entity` notifies every registered component
store, and each store's destroy at the entity's index is an in-bounds
overwrite with the default value — provided that store's capacity covers
the index (the unamended claim fails when it does not, see the
counterexample: the write is then out of bounds). -/
theorem C7_delete_notifies_all_stores (s : RegState) (e : Nat)
    (hi : get_entity_index 32 e < s.entities.length)
    (hst : ∀ p ∈ s.stores, get_entity_index 32 e < p.2.length) :
    delete_entity s e =
      some { s with
               entities := s.entities.set (get_entity_index 32 e)
                 ⟨create_invalid_entity 32, 0⟩,
               deleted_ids := s.deleted_ids ++ [e],
               stores := s.stores.map
                 fun p => (p.1, p.2.set (get_entity_index 32 e) 0) } := by
  unfold delete_entity
  rw [if_pos hi, cm_entity_destroyed_eq s.stores _ hst]

/-- C7 witness: deleting entity 0 in the state `c4_s1` (one store, of
capacity 32, for component id 0) resets that store's slot 0 to the
default. -/
theorem C7_delete_notifies_witness :
    get_entity_index 32 0 < c4_s1.entities.length ∧
    (∀ p ∈ c4_s1.stores, get_entity_index 32 0 < p.2.length) ∧
    delete_entity c4_s1 0 =
      some { c4_s1 with
               entities := c4_s1.entities.set (get_entity_index 32 0)
                 ⟨create_invalid_entity 32, 0⟩,
               deleted_ids := c4_s1.deleted_ids ++ [0],
               stores := c4_s1.stores.map
                 fun p => (p.1, p.2.set (get_entity_index 32 0) 0) } :=
  ⟨by decide, by decide,
    C7_delete_notifies_all_stores c4_s1 0 (by decide) (by decide)⟩

/-- C10 (amended): for every component type whose assigned id is at most
31, immediately after a (defined) `delete_entity(e)` the query `has(e)`
returns `false`: the deleted slot's mask is reset to `0` and `has` reads
only the mask.  (For ids 32–63 the shift in `has` is undefined; see the
counterexample.  The assertion conditions of `delete_entity` hold under
these hypotheses and `has` contains no assertion, so checked and unchecked
builds behave identically here.) -/
theorem C10_has_false_after_delete (s s1 : RegState) (e k : Nat)
    (hk : k ≤ 31) (h : delete_entity s e = some s1) :
    reg_has s1 e k = some false := by
  obtain ⟨ss, hlt, hss, hs1⟩ := delete_entity_inv h
  obtain ⟨b, hb⟩ := int_shl_one_u64_some_of_le hk
  subst hs1
  rw [reg_has_eq hb (by simpa using hlt)]
  show some (((s.entities.set (get_entity_index 32 e)
      ⟨create_invalid_entity 32, 0⟩).getD (get_entity_index 32 e)
        default_entity).mask &&& b != 0) = some false
  rw [getD_set_self _ _ _ _ hlt]
  simp

/-- C10 witness: deleting entity 0 of `demo_new_state` yields
`demo_deleted_state`, in which `has` for component id 0 is `false`. -/
theorem C10_has_false_witness :
    delete_entity demo_new_state 0 = some demo_deleted_state ∧
    reg_has demo_deleted_state 0 0 = some false :=
  ⟨by decide,
    C10_has_false_after_delete demo_new_state demo_deleted_state 0 0
      (by decide) (by decide)⟩

/-- C3: the claim evaluated on the operations that exist in the program.
The assign/has/get part behaves as claimed at component id 0 — after
`assign(e0, 7)` on the fresh entity 0, `has` is `true` and `get` yields
`7` — and executes an undefined shift at component id 32 (`1 << 32` on a
32-bit `int`), so it fails for ids 32–63.  The unassign part has no
counterpart in the program at all: `registry::unassign<T>` calls
`component_manager.destroy(entity)` without supplying `T`, and `T` occurs
in no parameter type of `component_manager::destroy`, so it cannot be
deduced and every instantiation of `unassign<T>` is ill-formed — the call
should read `component_manager.template destroy<T>(entity)`, exactly as
the neighbouring `registry::get` writes
`component_manager.template get<T>(entity)`. -/
theorem C3_assign_get_eval :
    reg_has demo_new_state 0 0 = some false ∧
    reg_assign demo_new_state 0 0 7 = some c4_s1 ∧
    reg_has c4_s1 0 0 = some true ∧
    reg_get c4_s1 0 0 = some 7 ∧
    c3_bad_assign = none := by
  decide

/-- C4: deletion clears all components.  For any starting state, live
entity `e` and two distinct component types: after `assign` of both, a
(defined) `delete_entity(e)` and a `new_entity()` returning an id `e2` at
the same index as `e`, both `has` queries on `e2` report `false` — the
deleted slot's mask was reset to `0`, and the reuse path installs a fresh
slot with mask `0`. -/
theorem C4_deletion_clears_components
    (s s1 s2 s3 s4 : RegState) (e e2 k1 k2 v1 v2 : Nat)
    (hne : k1 ≠ k2)
    (h1 : reg_assign s e k1 v1 = some s1)
    (h2 : reg_assign s1 e k2 v2 = some s2)
    (h3 : delete_entity s2 e = some s3)
    (h4 : new_entity s3 = some (s4, e2))
    (hidx : get_entity_index 32 e2 = get_entity_index 32 e) :
    reg_has s4 e2 k1 = some false ∧ reg_has s4 e2 k2 = some false := by
  obtain ⟨b1, hb1, hlt1, hs1⟩ := reg_assign_inv h1
  obtain ⟨b2, hb2, hlt2, hs2⟩ := reg_assign_inv h2
  obtain ⟨ss, hlt3, hss, hs3⟩ := delete_entity_inv h3
  obtain ⟨q, rest, hq⟩ : ∃ q rest, s3.deleted_ids = q :: rest := by
    rw [hs3]
    cases hd : s2.deleted_ids with
    | nil => exact ⟨e, [], by simp [hd]⟩
    | cons a l => exact ⟨a, l ++ [e], by simp [hd]⟩
  obtain ⟨he2, hltq, hs4⟩ := new_entity_reuse_inv2 hq h4
  have hlt3e : get_entity_index 32 e < s3.entities.length := by
    rw [hs3]
    simpa using hlt3
  have hmask0 :
      (s4.entities.getD (get_entity_index 32 e) default_entity).mask = 0 := by
    rw [hs4]
    show ((s3.entities.set (get_entity_index 32 q) ⟨e2, 0⟩).getD
      (get_entity_index 32 e) default_entity).mask = 0
    by_cases hiq : get_entity_index 32 q = get_entity_index 32 e
    · rw [hiq, getD_set_self _ _ _ _ hlt3e]
    · rw [getD_set_ne _ _ _ _ _ hiq, hs3]
      show ((s2.entities.set (get_entity_index 32 e)
        ⟨create_invalid_entity 32, 0⟩).getD (get_entity_index 32 e)
          default_entity).mask = 0
      rw [getD_set_self _ _ _ _ hlt3]
  have hlen4 : get_entity_index 32 e2 < s4.entities.length := by
    rw [hidx, hs4]
    show get_entity_index 32 e <
      (s3.entities.set (get_entity_index 32 q) ⟨e2, 0⟩).length
    simpa using hlt3e
  constructor
  · rw [reg_has_eq hb1 hlen4, hidx, hmask0]
    simp
  · rw [reg_has_eq hb2 hlen4, hidx, hmask0]
    simp

/-- C4 witness: the concrete run `demo_new_state` → assign component 0
(value 7) → assign component 1 (value 9) → delete entity 0 → `new_entity`
returns id `1` (index 0, the same slot), and both `has` queries are
`false`. -/
theorem C4_deletion_clears_witness :
    reg_assign demo_new_state 0 0 7 = some c4_s1 ∧
    reg_assign c4_s1 0 1 9 = some c4_s2 ∧
    delete_entity c4_s2 0 = some c4_s3 ∧
    new_entity c4_s3 = some (c4_p4.1, c4_p4.2) ∧
    get_entity_index 32 c4_p4.2 = get_entity_index 32 0 ∧
    (reg_has c4_p4.1 c4_p4.2 0 = some false ∧
      reg_has c4_p4.1 c4_p4.2 1 = some false) :=
  ⟨by decide, by decide, by decide, by decide, by decide,
    C4_deletion_clears_components demo_new_state c4_s1 c4_s2 c4_s3 c4_p4.1
      0 c4_p4.2 0 1 7 9 (by decide) (by decide) (by decide) (by decide)
      (by decide) (by decide)⟩
